import Mathlib

/-!
Verification development for the VTC report-to-chart pipeline
(`smart_chart_generator.py` and `api_service.py`).

Strings are modelled as lists of characters (`Str`).  The language-model
service is modelled as an oracle assigning to each call index a completion
(text plus token count); calls are threaded through an explicit state that
also records a log of the calls made.  `json.loads` is modelled as an
arbitrary parameter `loads : Str → Option Json` (it is an external library
function); the `Json` type models decoded Python values.  Python exceptions
are modelled with `Except Str`: raising is `.error msg`, and `try/except`
blocks become `match` on the `Except` value.
-/

namespace VTC

/-- Python strings, modelled as lists of characters. -/
abbrev Str := List Char

/-- Whitespace characters removed by Python `str.strip()`. -/
def isPyWs (c : Char) : Bool :=
  c = ' ' || c = '\t' || c = '\n' || c = '\x0d' || c = '\x0b' || c = '\x0c'

/-- Python `s.strip()`: drop leading and trailing whitespace. -/
def pyStrip (s : Str) : Str :=
  (((s.dropWhile isPyWs).reverse).dropWhile isPyWs).reverse

/-- Python `s.startswith(p)`: `p` is a prefix of `s`. -/
def startsWithL : Str → Str → Bool
  | [], _ => true
  | _ :: _, [] => false
  | p :: ps, c :: cs => p = c && startsWithL ps cs

/-- Index of the first occurrence of `pat` in `s`, if any
(the scan Python `str.split` performs). -/
def firstOcc (pat : Str) : Str → Option Nat
  | [] => none
  | c :: cs =>
    if startsWithL pat (c :: cs) then some 0
    else (firstOcc pat cs).map (· + 1)

/-- The three-character code-fence delimiter. -/
def tk3 : Str := "```".toList

/-- Non-overlapping left-to-right split on the triple-backtick delimiter,
with explicit recursion fuel so the definition is structural.  Every
recursive step consumes at least the delimiter's three characters from the
remaining string, so fuel equal to the string's length is never
exhausted. -/
def splitTicksF : Nat → Str → List Str
  | 0, s => [s]
  | fuel + 1, s =>
    match firstOcc tk3 s with
    | none => [s]
    | some i => s.take i :: splitTicksF fuel (s.drop (i + 3))

/-- Python `s.split("```")`. -/
def splitTicks (s : Str) : List Str := splitTicksF s.length s

/-- ASCII lowercasing, modelling Python `str.lower()` on the characters
relevant to the keyword set (the keyword constants are already lowercase). -/
def toLowerL (s : Str) : Str := s.map Char.toLower

/-- Python `needle in hay` substring test. -/
def containsL (needle hay : Str) : Bool := (firstOcc needle hay).isSome

/-- Decoded JSON values, as produced by `json.loads`.  Numbers are modelled
as rationals. -/
inductive Json where
  | jnull
  | jbool (b : Bool)
  | jnum (q : ℚ)
  | jstr (s : Str)
  | jarr (elems : List Json)
  | jobj (fields : List (Str × Json))

/-- First-match association lookup on an object's fields. -/
def assocFind (fields : List (Str × Json)) (k : Str) : Option Json :=
  match fields with
  | [] => none
  | (k', v) :: rest => if k' = k then some v else assocFind rest k

/-- Replace the value at key `k`, or append the pair when absent
(Python dict assignment, preserving insertion order). -/
def assocSet (fields : List (Str × Json)) (k : Str) (v : Json) :
    List (Str × Json) :=
  match fields with
  | [] => [(k, v)]
  | (k', v') :: rest =>
    if k' = k then (k', v) :: rest else (k', v') :: assocSet rest k v

/-- Total lookup: the value at key `k` when `j` is an object holding it. -/
def jGet (j : Json) (k : Str) : Option Json :=
  match j with
  | .jobj fields => assocFind fields k
  | _ => none

def msgAttrError : Str := "AttributeError: object has no attribute get".toList
def msgKeyError : Str := "KeyError".toList
def msgTypeError : Str := "TypeError".toList

/-- Python `d.get(k, dflt)`: raises `AttributeError` when `d` is not a dict. -/
def pyGet (j : Json) (k : Str) (dflt : Json) : Except Str Json :=
  match j with
  | .jobj fields => .ok ((assocFind fields k).getD dflt)
  | _ => .error msgAttrError

/-- Python `d[k]`: raises `KeyError` when absent, `TypeError` when `d` is not
a dict. -/
def pyIndex (j : Json) (k : Str) : Except Str Json :=
  match j with
  | .jobj fields =>
    match assocFind fields k with
    | some v => .ok v
    | none => .error (msgKeyError ++ k)
  | _ => .error msgTypeError

/-- Python `d[k] = v`: raises `TypeError` when `d` is not a dict. -/
def pySet (j : Json) (k : Str) (v : Json) : Except Str Json :=
  match j with
  | .jobj fields => .ok (.jobj (assocSet fields k v))
  | _ => .error msgTypeError

/-- Python truth-value test (`if not x:` and friends) on decoded JSON. -/
def pyFalsy : Json → Bool
  | .jnull => true
  | .jbool b => !b
  | .jnum q => q = 0
  | .jstr s => s.isEmpty
  | .jarr l => l.isEmpty
  | .jobj fields => fields.isEmpty

/-- Python `str(x)` as used in f-strings, for the cases exercised by the
pipeline (string payloads); other variants get fixed renderings. -/
def pyStrOf : Json → Str
  | .jstr s => s
  | .jnull => "None".toList
  | .jbool true => "True".toList
  | .jbool false => "False".toList
  | .jnum _ => "<num>".toList
  | .jarr _ => "<list>".toList
  | .jobj _ => "<dict>".toList

/-! ### Markdown fence normalization

Embeds the repeated parsing preamble (`smart_chart_generator.py` lines
108–115 and 152–159, `api_service.py` lines 721–726):

    result = raw.strip()
    if result.startswith("```"):
        result = result.split("```")[1]
        if result.startswith("json"):
            result = result[4:]
    result = result.strip()

Python list indexing `[1]` raises `IndexError` when the split yields fewer
than two segments; the embedding surfaces that as `.error`. -/

def kwJson : Str := "json".toList

def msgIndexError : Str := "IndexError: list index out of range".toList

def normalizeFence (raw : Str) : Except Str Str :=
  let r := pyStrip raw
  if startsWithL tk3 r then
    match (splitTicks r).get? 1 with
    | some seg =>
      let seg' := if startsWithL kwJson seg then seg.drop 4 else seg
      .ok (pyStrip seg')
    | none => .error msgIndexError
  else .ok (pyStrip r)

/-- Total companion of `normalizeFence` (the `IndexError` branch is proved
unreachable below). -/
def normFn (raw : Str) : Str :=
  let r := pyStrip raw
  if startsWithL tk3 r then
    let seg := (splitTicks r).getD 1 []
    pyStrip (if startsWithL kwJson seg then seg.drop 4 else seg)
  else pyStrip r

/-! ### Language-model service

The service is an external collaborator: an oracle mapping each call index
to a completion (text and total token count).  Calls are threaded through an
`LMState` carrying the next call index and a log of the calls made, so that
theorems can speak about which calls a run performed and their token
counts. -/

structure Completion where
  text : Str
  totalTokens : Nat

/-- The external completion service: call number ↦ completion. -/
abbrev Oracle := Nat → Completion

/-- Which pipeline site issued an LM call. -/
inductive CallTag where
  | ocr
  | extraction
  | specGen
  | analysis
deriving DecidableEq

structure CallRec where
  tag : CallTag
  request : Str
  tokens : Nat

structure LMState where
  idx : Nat
  log : List CallRec

/-- Issue one call to the completion service, recording it in the log. -/
def lmCall (o : Oracle) (tag : CallTag) (request : Str) (st : LMState) :
    Completion × LMState :=
  let c := o st.idx
  (c, { idx := st.idx + 1, log := st.log ++ [{ tag := tag, request := request, tokens := c.totalTokens }] })

/-! ### Chart renderer

Embeds `create_chart` (`api_service.py` lines 118–221).  The matplotlib
backend is foreign; its behaviour is modelled as follows:
* `plt.subplots` acquires one figure; `plt.close(fig)` releases it.  The
  embedding counts acquisitions and releases per call.
* `ax.plot` / `ax.bar` / `ax.fill_between` reject non-sequence arguments and
  series of unequal length.
* `ax.pie` rejects non-numeric values and `labels` / `explode` sequences
  whose length differs from `values`.
* `ax.scatter` rejects `sizes` / `colors` sequences whose length differs
  from `x`.
* `ax.imshow` rejects inputs that do not convert to a non-empty 2-D numeric
  array: non-sequences, empty row lists, ragged rows, non-numeric cells.
* title/label setting, `tight_layout`, `savefig`, `colorbar`, legends and
  `plt.style.use` / `rcParams` are modelled as total.
Python `[0.05] * len(labels)` and `range(len(x))` default arguments are
evaluated eagerly, so `len()` of an unsized object raises before `.get`
returns; the embedding mirrors that order. -/

def kX : Str := "x".toList
def kY : Str := "y".toList
def kLabel : Str := "label".toList
def kLabels : Str := "labels".toList
def kValues : Str := "values".toList
def kColors : Str := "colors".toList
def kExplode : Str := "explode".toList
def kSizes : Str := "sizes".toList
def kMatrix : Str := "matrix".toList
def kXlabels : Str := "xlabels".toList
def kYlabels : Str := "ylabels".toList

def ctLine : Str := "line".toList
def ctBar : Str := "bar".toList
def ctPie : Str := "pie".toList
def ctScatter : Str := "scatter".toList
def ctHeatmap : Str := "heatmap".toList
def ctArea : Str := "area".toList

/-- Python `==` between a decoded value and a string literal. -/
def jEqStr (j : Json) (s : Str) : Bool :=
  match j with
  | .jstr t => t = s
  | _ => false

/-- Python `len()`: length of a sized object, `TypeError` otherwise. -/
def pyLenE (j : Json) : Except Str Nat :=
  match j with
  | .jarr l => .ok l.length
  | .jstr s => .ok s.length
  | .jobj fields => .ok fields.length
  | _ => .error msgTypeError

def msgNotSeq : Str := "could not convert argument to a data array".toList
def msgLenMismatch : Str := "x and y must have same first dimension".toList
def msgPieBad : Str := "pie arguments rejected".toList
def msgScatterBad : Str := "scatter arguments rejected".toList
def msgImshowBad : Str := "invalid image data".toList

/-- Matplotlib array conversion: only sequences are accepted in the model. -/
def asArrE (j : Json) : Except Str (List Json) :=
  match j with
  | .jarr l => .ok l
  | _ => .error msgNotSeq

def isNum (j : Json) : Bool :=
  match j with
  | .jnum _ => true
  | _ => false

def isNumRow (r : Json) : Bool :=
  match r with
  | .jarr es => es.all isNum
  | _ => false

def rowLen (r : Json) : Nat :=
  match r with
  | .jarr es => es.length
  | _ => 0

/-- `ax.imshow` accepts exactly the row lists forming a non-empty
rectangular numeric matrix. -/
def imshowAccepts (rows : List Json) : Bool :=
  match rows with
  | [] => false
  | r :: rest => isNumRow r && rest.all (fun r' => isNumRow r' && (rowLen r' == rowLen r))

/-- Model of the `plt.cm.Set3(range(n))` categorical palette object. -/
def set3Palette (n : Nat) : Json := .jarr (List.replicate n .jnull)

/-- Model of Python `range(n)` used as a color sequence. -/
def rangeSeq (n : Nat) : Json := .jarr ((List.range n).map (fun i => .jnum i))

/-- `if xlabels:` followed by `set_xticks(range(len(xlabels)))`: a truthy
unsized object raises `TypeError` at `len()`. -/
def checkTicks (labelsj : Json) : Except Str Unit :=
  if pyFalsy labelsj then .ok ()
  else (pyLenE labelsj).map (fun _ => ())

/-- What was drawn on the axes, per chart type. -/
inductive DrawPayload where
  | line (xs ys : List Json) (label : Json)
  | bar (xs ys : List Json)
  | pie (values labels : List Json) (explode : Json)
  | scatter (xs ys sizes : List Json)
  | heatmap (rows : List Json) (xlabels ylabels : Json)
  | area (xs ys : List Json)

/-- The explode sequence a pie render used, if this is a pie payload. -/
def DrawPayload.explodeOf : DrawPayload → Option Json
  | .pie _ _ e => some e
  | _ => none

structure DrawnChart where
  chartType : Json
  title : Json
  xlabel : Json
  ylabel : Json
  payload : DrawPayload

def msgUnsupportedPrefix : Str := "Loại biểu đồ không hỗ trợ: ".toList

/-- The `try:` body of `create_chart`: per-type dispatch (lines 136–200). -/
def createBody (data ct : Json) : Except Str DrawPayload := do
  if jEqStr ct ctLine then
    let xj ← pyGet data kX (.jarr [])
    let yj ← pyGet data kY (.jarr [])
    let labelj ← pyGet data kLabel (.jstr [])
    let xs ← asArrE xj
    let ys ← asArrE yj
    if xs.length == ys.length then
      return .line xs ys labelj
    else throw msgLenMismatch
  else if jEqStr ct ctBar then
    let xj ← pyGet data kX (.jarr [])
    let yj ← pyGet data kY (.jarr [])
    let nX ← pyLenE xj
    let _colorsj ← pyGet data kColors (set3Palette nX)
    let xs ← asArrE xj
    let ys ← asArrE yj
    if xs.length == ys.length then
      return .bar xs ys
    else throw msgLenMismatch
  else if jEqStr ct ctPie then
    let labelsj ← pyGet data kLabels (.jarr [])
    let valuesj ← pyGet data kValues (.jarr [])
    let nLabels ← pyLenE labelsj
    let _colorsj ← pyGet data kColors (set3Palette nLabels)
    let explodej ← pyGet data kExplode (.jarr (List.replicate nLabels (.jnum (1/20))))
    let values ← asArrE valuesj
    let labels ← asArrE labelsj
    let explode ← asArrE explodej
    if values.all isNum && labels.length == values.length && explode.length == values.length then
      return .pie values labels explodej
    else throw msgPieBad
  else if jEqStr ct ctScatter then
    let xj ← pyGet data kX (.jarr [])
    let yj ← pyGet data kY (.jarr [])
    let nX ← pyLenE xj
    let sizesj ← pyGet data kSizes (.jarr (List.replicate nX (.jnum 100)))
    let colorsj ← pyGet data kColors (rangeSeq nX)
    let xs ← asArrE xj
    let ys ← asArrE yj
    let sizes ← asArrE sizesj
    let cs ← asArrE colorsj
    if xs.length == ys.length && sizes.length == xs.length && cs.length == xs.length then
      return .scatter xs ys sizes
    else throw msgScatterBad
  else if jEqStr ct ctHeatmap then
    let matrixj ← pyGet data kMatrix (.jarr [.jarr []])
    let xlabelsj ← pyGet data kXlabels (.jarr [])
    let ylabelsj ← pyGet data kYlabels (.jarr [])
    let rows ← asArrE matrixj
    if imshowAccepts rows then
      let _ ← checkTicks xlabelsj
      let _ ← checkTicks ylabelsj
      return .heatmap rows xlabelsj ylabelsj
    else throw msgImshowBad
  else if jEqStr ct ctArea then
    let xj ← pyGet data kX (.jarr [])
    let yj ← pyGet data kY (.jarr [])
    let xs ← asArrE xj
    let ys ← asArrE yj
    if xs.length == ys.length then
      return .area xs ys
    else throw msgLenMismatch
  else
    throw (msgUnsupportedPrefix ++ pyStrOf ct)

structure RenderResult where
  outcome : Except Str DrawnChart
  figsOpened : Nat
  figsClosed : Nat

def renderErrPrefix : Str := "Lỗi tạo biểu đồ: ".toList

/-- `create_chart` (lines 118–221): acquire one figure, run the body, close
the figure on both the success and the exception path; the exception path
re-raises with the `HTTPException` detail prefix. -/
def createChart (data ct title xlabel ylabel : Json) : RenderResult :=
  match createBody data ct with
  | .ok payload =>
    { outcome := .ok { chartType := ct, title := title, xlabel := xlabel,
                       ylabel := ylabel, payload := payload },
      figsOpened := 1, figsClosed := 1 }
  | .error e =>
    { outcome := .error (renderErrPrefix ++ e),
      figsOpened := 1, figsClosed := 1 }

/-! ### Extraction and spec-synthesis stages

Embeds `SmartChartGenerator.extract_financial_data` (lines 89–120),
`generate_chart_config` (lines 122–164), `generate_multiple_charts`
(lines 166–217) and `integrate_smart_chart_to_api` (lines 222–277) of
`smart_chart_generator.py`.  `json.loads` is an external library function,
passed in as `loads : Str → Option Json` (`none` models
`json.JSONDecodeError`). -/

def kExtractedData : Str := "extracted_data".toList
def kRecommendedCharts : Str := "recommended_charts".toList
def kTitle : Str := "title".toList
def kType : Str := "type".toList
def kPriority : Str := "priority".toList
def kDescription : Str := "description".toList
def kData : Str := "data".toList
def kChartType : Str := "chart_type".toList
def kXlabel : Str := "xlabel".toList
def kYlabel : Str := "ylabel".toList

def msgBadJsonPrefix : Str := "AI không trả về JSON hợp lệ: ".toList
def msgBadCfgPrefix : Str := "Không thể parse cấu hình biểu đồ: ".toList
def msgNoExtract : Str := "Không thể trích xuất dữ liệu từ báo cáo".toList

/-- `extract_financial_data`: one LM call, fence normalization, then
`json.loads`; `ValueError` with the first 200 characters of the normalized
text when the parse fails. -/
def extractFD (loads : Str → Option Json) (o : Oracle) (report : Str)
    (st : LMState) : Except Str Json × LMState :=
  let (c, st') := lmCall o .extraction report st
  match normalizeFence c.text with
  | .error e => (.error e, st')
  | .ok txt =>
    match loads txt with
    | some j => (.ok j, st')
    | none => (.error (msgBadJsonPrefix ++ txt.take 200), st')

/-- `generate_chart_config`: one LM call whose prompt embeds the extracted
dataset and the chart request, fence normalization, then `json.loads`.
The dataset only feeds the prompt, which the oracle model abstracts; the
log records the request string. -/
def generateChartConfig (loads : Str → Option Json) (o : Oracle)
    (_extractedData : Json) (chartRequest : Str) (st : LMState) :
    Except Str Json × LMState :=
  let (c, st') := lmCall o .specGen chartRequest st
  match normalizeFence c.text with
  | .error e => (.error e, st')
  | .ok txt =>
    match loads txt with
    | some j => (.ok j, st')
    | none => (.error (msgBadCfgPrefix ++ txt.take 200), st')

def reqPrefix : Str := "Tạo ".toList
def reqMid : Str := " chart: ".toList

/-- The f-string `f"Tạo {chart_rec['type']} chart: {chart_rec['title']}"`;
the key lookups raise `KeyError` inside the `try` block. -/
def mkChartRequest (rec : Json) : Except Str Str := do
  let ty ← pyIndex rec kType
  let ti ← pyIndex rec kTitle
  return reqPrefix ++ pyStrOf ty ++ reqMid ++ pyStrOf ti

/-- The request string `mkChartRequest` produces when both keys are
present. -/
def recReq (rec : Json) : Str :=
  reqPrefix ++ pyStrOf ((jGet rec kType).getD .jnull) ++ reqMid ++
    pyStrOf ((jGet rec kTitle).getD .jnull)

/-- The `try` body of one `generate_multiple_charts` loop iteration
(lines 200–212): build the request, synthesize a config, then attach
`priority` (default `i + 1`) and `description` metadata. -/
def genTryBody (loads : Str → Option Json) (o : Oracle) (ed rec : Json)
    (i : Nat) (st : LMState) : Except Str Json × LMState :=
  match mkChartRequest rec with
  | .error e => (.error e, st)
  | .ok req =>
    let (r, st') := generateChartConfig loads o ed req st
    match r with
    | .error e => (.error e, st')
    | .ok cfg =>
      match pyGet rec kPriority (.jnum (i + 1)) with
      | .error e => (.error e, st')
      | .ok pr =>
        match pySet cfg kPriority pr with
        | .error e => (.error e, st')
        | .ok cfg' =>
          match pyGet rec kDescription (.jstr []) with
          | .error e => (.error e, st')
          | .ok de =>
            match pySet cfg' kDescription de with
            | .error e => (.error e, st')
            | .ok cfg'' => (.ok cfg'', st')

/-- The `for i, chart_rec in enumerate(recommended_charts[:num_charts])`
loop (lines 197–215).  The `print(... chart_rec['title'])` before the `try`
block raises `KeyError` out of the function when `title` is absent; a
failure inside the `try` block is caught and the loop continues. -/
def genMultiLoop (loads : Str → Option Json) (o : Oracle) (ed : Json) :
    List Json → Nat → LMState → Except Str (List Json) × LMState
  | [], _, st => (.ok [], st)
  | rec :: rest, i, st =>
    match pyIndex rec kTitle with
    | .error e => (.error e, st)
    | .ok _ =>
      match genTryBody loads o ed rec i st with
      | (.error _, st') => genMultiLoop loads o ed rest (i + 1) st'
      | (.ok cfg, st') =>
        match genMultiLoop loads o ed rest (i + 1) st' with
        | (.ok l, st'') => (.ok (cfg :: l), st'')
        | (.error e, st'') => (.error e, st'')

/-- `generate_multiple_charts` (lines 166–217): extract, read
`extracted_data` and `recommended_charts`, fail when the extracted data is
falsy, then loop over the first `numCharts` recommendations. -/
def genMultipleCharts (loads : Str → Option Json) (o : Oracle)
    (report : Str) (numCharts : Nat) (st : LMState) :
    Except Str (List Json) × LMState :=
  match extractFD loads o report st with
  | (.error e, st1) => (.error e, st1)
  | (.ok extraction, st1) =>
    match pyGet extraction kExtractedData (.jobj []) with
    | .error e => (.error e, st1)
    | .ok ed =>
      match pyGet extraction kRecommendedCharts (.jarr []) with
      | .error e => (.error e, st1)
      | .ok recsJ =>
        if pyFalsy ed then (.error msgNoExtract, st1)
        else
          match recsJ with
          | .jarr recs => genMultiLoop loads o ed (recs.take numCharts) 0 st1
          | _ => (.error msgTypeError, st1)

def kw1 : Str := "biểu đồ".toList
def kw2 : Str := "chart".toList
def kw3 : Str := "vẽ".toList
def kw4 : Str := "graph".toList

def kwList : List Str := [kw1, kw2, kw3, kw4]

/-- `user_request and any(keyword in user_request.lower() for keyword in
["biểu đồ", "chart", "vẽ", "graph"])` (lines 240–241). -/
def chartIntent (userReq : Option Str) : Bool :=
  match userReq with
  | none => false
  | some ur => !ur.isEmpty && kwList.any (fun kw => containsL kw (toLowerL ur))

/-- One result dict field: absent from the dict, Python `None`, or a
value. -/
inductive PyOpt (α : Type) where
  | absent
  | pyNone
  | val (a : α)

/-- The dict `integrate_smart_chart_to_api` returns. -/
structure ApiResult where
  errorMsg : PyOpt Str
  extractedData : PyOpt Json
  chartConfigs : PyOpt (List Json)
  recommendedCharts : PyOpt Json

/-- The `try` body of `integrate_smart_chart_to_api` (lines 238–270): with
chart intent, extract and synthesize exactly one config from the request;
otherwise run `generate_multiple_charts` with `num_charts=3`. -/
def integrateInner (loads : Str → Option Json) (o : Oracle) (pdfText : Str)
    (userReq : Option Str) (st : LMState) : Except Str ApiResult × LMState :=
  if chartIntent userReq then
    match extractFD loads o pdfText st with
    | (.error e, st1) => (.error e, st1)
    | (.ok extraction, st1) =>
      match pyGet extraction kExtractedData (.jobj []) with
      | .error e => (.error e, st1)
      | .ok ed =>
        match generateChartConfig loads o ed (userReq.getD []) st1 with
        | (.error e, st2) => (.error e, st2)
        | (.ok cfg, st2) =>
          match pyGet extraction kRecommendedCharts (.jarr []) with
          | .error e => (.error e, st2)
          | .ok recsJ =>
            (.ok { errorMsg := .absent, extractedData := .val ed,
                   chartConfigs := .val [cfg],
                   recommendedCharts := .val recsJ }, st2)
  else
    match genMultipleCharts loads o pdfText 3 st with
    | (.error e, st1) => (.error e, st1)
    | (.ok configs, st1) =>
      (.ok { errorMsg := .absent, extractedData := .absent,
             chartConfigs := .val configs,
             recommendedCharts := .absent }, st1)

/-- `integrate_smart_chart_to_api` (lines 222–277): run the body under
`try`; any exception is caught and turned into
`{"error": str(e), "extracted_data": None, "chart_configs": []}`. -/
def integrateSmart (loads : Str → Option Json) (o : Oracle) (pdfText : Str)
    (userReq : Option Str) (st : LMState) : ApiResult × LMState :=
  match integrateInner loads o pdfText userReq st with
  | (.ok r, st') => (r, st')
  | (.error e, st') =>
    ({ errorMsg := .val e, extractedData := .pyNone,
       chartConfigs := .val [], recommendedCharts := .absent }, st')

/-! ### Batch packager

Embeds the `individual` branch of `render_all_charts`
(`api_service.py` lines 1024–1050): for each config, look up `data`,
`chart_type` and `title` (a `KeyError` aborts), render via `create_chart`,
and collect the results.  No per-item error handling exists: the first
failure propagates out of the loop and aborts the whole batch (the outer
`except` turns it into an HTTP 500).  The `zip` branch (lines 994–1022) has
the same per-item control flow. -/

structure RenderedOut where
  title : Json
  chartType : Json
  image : DrawnChart

/-- Render one config dict from the batch list. -/
def renderOne (c : Json) : Except Str RenderedOut := do
  let data ← pyIndex c kData
  let ct ← pyIndex c kChartType
  let title ← pyIndex c kTitle
  let xl ← pyGet c kXlabel .jnull
  let yl ← pyGet c kYlabel .jnull
  let img ← (createChart data ct title xl yl).outcome
  return { title := title, chartType := ct, image := img }

/-- The `individual` loop of `render_all_charts`: the first render failure
propagates and aborts the remaining iterations. -/
def renderAllIndividual : List Json → Except Str (List RenderedOut)
  | [] => .ok []
  | c :: rest =>
    match renderOne c with
    | .error e => .error e
    | .ok r =>
      match renderAllIndividual rest with
      | .error e => .error e
      | .ok l => .ok (r :: l)

/-! ### Full pipeline orchestration

Embeds the parts of `full_pipeline` (`api_service.py` lines 796–943) that
the claims concern: the OCR loop over images (one LM call each, tokens
added to `total_tokens`), the smart-chart branch (guarded by
`create_charts and pdf_text`; its LM calls go through `integrateSmart`,
whose token counts are *not* added), the combined-text analysis call
(tokens added), and the statistics.  PDF text extraction is external; the
caller supplies the extracted text directly. -/

def pdfHeader : Str := "=== Từ PDF ===".toList
def imgHeader : Str := "=== Từ ảnh ===".toList

/-- The OCR loop (lines 840–867): one LM call per image; token counts are
accumulated and each analysis is appended to the combined text. -/
def ocrPhase (o : Oracle) :
    List Str → Str → Nat → LMState → Str × Nat × LMState
  | [], combined, tot, st => (combined, tot, st)
  | img :: rest, combined, tot, st =>
    let (c, st') := lmCall o .ocr img st
    ocrPhase o rest (combined ++ imgHeader ++ c.text) (tot + c.totalTokens) st'

structure PipeResult where
  chartConfigs : List Json
  chartsAvailable : Bool
  analysisRan : Bool
  totalTokensUsed : Nat
  chartsCreated : Nat

/-- The smart-chart branch (lines 869–900): guarded by
`create_charts and pdf_text`; its LM calls happen inside `integrateSmart`
and their token counts are not added to the pipeline's counter. -/
def chartPhase (loads : Str → Option Json) (o : Oracle) (pdfT : Str)
    (textContent : Option Str) (createCharts : Bool) (st : LMState) :
    List Json × Bool × LMState :=
  if createCharts && !pdfT.isEmpty then
    let (r, st') := integrateSmart loads o pdfT textContent st
    match r.chartConfigs with
    | .val (c :: cs) => (c :: cs, true, st')
    | _ => ([], false, st')
  else ([], false, st)

/-- The combined-text analysis call (lines 902–929): one LM call whose
token count is added to the pipeline's counter. -/
def analysisPhase (o : Oracle) (combined : Str) (tot : Nat) (st : LMState) :
    Bool × Nat × LMState :=
  if !(pyStrip combined).isEmpty then
    let (c, st') := lmCall o .analysis combined st
    (true, tot + c.totalTokens, st')
  else (false, tot, st)

/-- The combined text after the `text_content` seed and the PDF section
(lines 823–837). -/
def pdfCombined (textContent pdfText : Option Str) : Str :=
  match pdfText with
  | some p => textContent.getD [] ++ pdfHeader ++ p
  | none => textContent.getD []

/-- `full_pipeline` (lines 796–943). -/
def fullPipeline (loads : Str → Option Json) (o : Oracle)
    (pdfText : Option Str) (images : List Str) (textContent : Option Str)
    (createCharts : Bool) (st : LMState) : PipeResult × LMState :=
  let pdfT := pdfText.getD []
  let combined1 := pdfCombined textContent pdfText
  let (combined2, tot2, st2) := ocrPhase o images combined1 0 st
  let (configs, avail, st3) := chartPhase loads o pdfT textContent createCharts st2
  let (ran, tot4, st4) := analysisPhase o combined2 tot2 st3
  ({ chartConfigs := configs, chartsAvailable := avail, analysisRan := ran,
     totalTokensUsed := tot4,
     chartsCreated := if createCharts then configs.length else 0 }, st4)

/-- Sum of the token counts in a call log. -/
def sumTok (l : List CallRec) : Nat := (l.map (fun e => e.tokens)).sum

/-- The log entries whose tokens `full_pipeline` actually accumulates:
image-analysis and final-analysis calls. -/
def filterOA (l : List CallRec) : List CallRec :=
  l.filter (fun e => e.tag == CallTag.ocr || e.tag == CallTag.analysis)

/-- The requests of the spec-synthesis calls in a log. -/
def specReqs (l : List CallRec) : List Str :=
  (l.filter (fun e => e.tag == CallTag.specGen)).map (fun e => e.request)

/-- The six chart kinds `create_chart` dispatches on. -/
def supportedCt (ct : Json) : Bool :=
  jEqStr ct ctLine || jEqStr ct ctBar || jEqStr ct ctPie ||
  jEqStr ct ctScatter || jEqStr ct ctHeatmap || jEqStr ct ctArea

/-! ### Concrete fixtures used by witnesses and counterexamples

The oracle texts are single letters; the `loads` parameter maps them to the
decoded values a real `json.loads` would produce for the corresponding
completions. -/

def txtE : Str := "E".toList
def txtC : Str := "C".toList
def txtO : Str := "O".toList

def mkLoads (ext cfg : Json) : Str → Option Json :=
  fun s => if s = txtE then some ext else if s = txtC then some cfg else none

def loadsNone : Str → Option Json := fun _ => none

/-- Call 0 is the extraction completion, later calls are spec-synthesis
completions; every completion reports 7 tokens. -/
def oracleEC : Oracle :=
  fun n =>
    if n = 0 then { text := txtE, totalTokens := 7 }
    else { text := txtC, totalTokens := 7 }

/-- Completion sequence of a full-pipeline run: one OCR call, the
extraction call, one spec-synthesis call, the final analysis call. -/
def oracleOECA : Oracle :=
  fun n =>
    if n = 0 then { text := txtO, totalTokens := 7 }
    else if n = 1 then { text := txtE, totalTokens := 7 }
    else if n = 2 then { text := txtC, totalTokens := 7 }
    else { text := txtO, totalTokens := 7 }

def st0 : LMState := { idx := 0, log := [] }

def titleT1 : Str := "T1".toList
def titleT2 : Str := "T2".toList
def titleT3 : Str := "T3".toList
def titleT4 : Str := "T4".toList
def titleT5 : Str := "T5".toList

/-- A recommendation dict with the given title and priority. -/
def recFix (ti : Str) (prio : ℚ) : Json :=
  .jobj [(kTitle, .jstr ti), (kType, .jstr ctBar), (kPriority, .jnum prio)]

/-- Five recommendations whose priorities are `[3, 1, 2, 5, 4]` in list
order. -/
def recsP : List Json :=
  [recFix titleT1 3, recFix titleT2 1, recFix titleT3 2,
   recFix titleT4 5, recFix titleT5 4]

def edNonempty : Json := .jobj [(kX, .jnum 1)]

def extWithRecs : Json :=
  .jobj [(kExtractedData, edNonempty), (kRecommendedCharts, .jarr recsP)]

/-- An extraction result whose `extracted_data` is the empty dict. -/
def extEmptyED : Json :=
  .jobj [(kExtractedData, .jobj []), (kRecommendedCharts, .jarr [])]

def cfgTitle : Str := "CFG".toList

/-- A well-formed spec-synthesis completion value. -/
def cfgFix : Json :=
  .jobj [(kChartType, .jstr ctBar), (kTitle, .jstr cfgTitle),
         (kData, .jobj [(kX, .jarr []), (kY, .jarr [])])]

def pdfP : Str := "P".toList
def imgI : Str := "I".toList
def reportR : Str := "R".toList

/-- A user request containing the chart-intent keyword `chart`. -/
def userReqChart : Str := "chart please".toList

/-- A `generate_multiple_charts` run over the priority-`[3,1,2,5,4]`
recommendations with `num_charts = 2`. -/
def runC1 : Except Str (List Json) × LMState :=
  genMultipleCharts (mkLoads extWithRecs cfgFix) oracleEC reportR 2 st0

/-- A user-request run whose extraction yields an empty dataset. -/
def runEmptyED : ApiResult × LMState :=
  integrateSmart (mkLoads extEmptyED cfgFix) oracleEC pdfP (some userReqChart) st0

/-- A full-pipeline run: one image, a PDF, a chart-intent request, charts
on; every completion reports 7 tokens. -/
def runPipe : PipeResult × LMState :=
  fullPipeline (mkLoads extWithRecs cfgFix) oracleOECA (some pdfP) [imgI]
    (some userReqChart) true st0

def ctDonut : Str := "donut".toList

/-- A renderable batch config (line chart, empty data). -/
def goodLineCfg : Json :=
  .jobj [(kData, .jobj []), (kChartType, .jstr ctLine), (kTitle, .jstr titleT1)]

/-- A batch config with an unsupported chart type. -/
def badTypeCfg : Json :=
  .jobj [(kData, .jobj []), (kChartType, .jstr ctDonut), (kTitle, .jstr titleT2)]

def rowJ (l : List ℚ) : Json := .jarr (l.map (fun q => .jnum q))

/-- The ragged heatmap matrix `[[1,2,3],[4,5]]`. -/
def heatDataRagged : Json := .jobj [(kMatrix, .jarr [rowJ [1, 2, 3], rowJ [4, 5]])]

/-- The rectangular heatmap matrix `[[1,2],[3,4]]`. -/
def heatDataRect : Json := .jobj [(kMatrix, .jarr [rowJ [1, 2], rowJ [3, 4]])]

/-- A pie data dict with four labels and no `explode` key. -/
def pieData4 : List (Str × Json) :=
  [(kLabels, .jarr [.jstr titleT1, .jstr titleT2, .jstr titleT3, .jstr titleT4]),
   (kValues, .jarr [.jnum 1, .jnum 2, .jnum 3, .jnum 4])]

def exFenced : Str := "```json\n\x7b\"a\":1\x7d\n```".toList
def exPlain : Str := "\x7b\"a\":1\x7d".toList

/-! ## Theorems -/

theorem tk3_ne_nil : tk3 ≠ [] := by decide

theorem firstOcc_of_startsWith (s : Str) (h : startsWithL tk3 s = true) :
    firstOcc tk3 s = some 0 := by
  cases s with
  | nil =>
    cases htk : tk3 with
    | nil => exact absurd htk tk3_ne_nil
    | cons p ps => rw [htk] at h; simp [startsWithL] at h
  | cons c cs => simp [firstOcc, h]

theorem splitTicksF_ne_nil (f : Nat) (s : Str) : splitTicksF f s ≠ [] := by
  cases f with
  | zero => simp [splitTicksF]
  | succ n =>
    cases h : firstOcc tk3 s with
    | none => simp [splitTicksF, h]
    | some i => simp [splitTicksF, h]

theorem splitTicks_start (s : Str) (h : startsWithL tk3 s = true) :
    ∃ m, splitTicks s = [] :: splitTicksF m (s.drop 3) := by
  have hs : s ≠ [] := by
    intro he
    rw [he] at h
    cases htk : tk3 with
    | nil => exact absurd htk tk3_ne_nil
    | cons p ps => rw [htk] at h; simp [startsWithL] at h
  obtain ⟨c, cs, rfl⟩ := List.exists_cons_of_ne_nil hs
  refine ⟨cs.length, ?_⟩
  have h0 : firstOcc tk3 (c :: cs) = some 0 := firstOcc_of_startsWith _ h
  unfold splitTicks
  simp [splitTicksF, h0]

/-- The `IndexError` branch of the fence stripper is unreachable: when the
stripped text starts with a fence, the split has a second segment. -/
theorem normalizeFence_eq (raw : Str) :
    normalizeFence raw = .ok (normFn raw) := by
  unfold normalizeFence normFn
  by_cases h : startsWithL tk3 (pyStrip raw) = true
  · obtain ⟨m, hm⟩ := splitTicks_start _ h
    obtain ⟨a, l, hl⟩ :=
      List.exists_cons_of_ne_nil (splitTicksF_ne_nil m ((pyStrip raw).drop 3))
    simp [h, hm, hl]
  · simp [h]

theorem dropWhile_idem (p : Char → Bool) (l : List Char) :
    (l.dropWhile p).dropWhile p = l.dropWhile p := by
  induction l with
  | nil => rfl
  | cons a t ih =>
    by_cases h : p a = true
    · simp [List.dropWhile_cons, h, ih]
    · have h' : p a = false := by revert h; cases p a <;> simp
      simp [List.dropWhile_cons, h']

theorem dropWhile_length_le (p : Char → Bool) (l : List Char) :
    (l.dropWhile p).length ≤ l.length := by
  induction l with
  | nil => simp
  | cons a t ih =>
    by_cases h : p a = true
    · simp only [List.dropWhile_cons, h, if_true, List.length_cons]
      exact le_trans ih (Nat.le_succ _)
    · have h' : p a = false := by revert h; cases p a <;> simp
      simp [List.dropWhile_cons, h']

theorem dropWhile_prefix_stable (p : Char → Bool) (l P t : List Char)
    (hl : l.dropWhile p = l) (hpt : P ++ t = l) : P.dropWhile p = P := by
  cases P with
  | nil => rfl
  | cons a q =>
    have ha : p a = false := by
      by_contra hpa
      have hpa' : p a = true := by revert hpa; cases p a <;> simp
      rw [← hpt, List.cons_append, List.dropWhile_cons, hpa'] at hl
      have hlen := congrArg List.length hl
      have hle := dropWhile_length_le p (q ++ t)
      simp [List.length_append] at hlen hle
      omega
    simp [List.dropWhile_cons, ha]

theorem pyStrip_left_stripped (s : Str) :
    (pyStrip s).dropWhile isPyWs = pyStrip s := by
  have hsuf : (s.dropWhile isPyWs).reverse.dropWhile isPyWs <:+
      (s.dropWhile isPyWs).reverse := List.dropWhile_suffix _
  obtain ⟨u, hu⟩ := hsuf
  have ht : pyStrip s ++ u.reverse = s.dropWhile isPyWs := by
    have := congrArg List.reverse hu
    simpa [pyStrip] using this
  exact dropWhile_prefix_stable isPyWs (s.dropWhile isPyWs) (pyStrip s)
    u.reverse (dropWhile_idem _ _) ht

theorem pyStrip_right_stripped (s : Str) :
    (pyStrip s).reverse.dropWhile isPyWs = (pyStrip s).reverse := by
  unfold pyStrip
  rw [List.reverse_reverse]
  exact dropWhile_idem _ _

theorem pyStrip_of_stripped (X : Str) (h1 : X.dropWhile isPyWs = X)
    (h2 : X.reverse.dropWhile isPyWs = X.reverse) : pyStrip X = X := by
  unfold pyStrip
  rw [h1, h2, List.reverse_reverse]

theorem pyStrip_idem (s : Str) : pyStrip (pyStrip s) = pyStrip s :=
  pyStrip_of_stripped (pyStrip s) (pyStrip_left_stripped s)
    (pyStrip_right_stripped s)

/-- Claim C6: for every input string, fence normalization raises no error;
when the trimmed input begins with a triple-backtick fence it returns the
first fence segment with a leading `json` tag (four characters) dropped and
whitespace trimmed, otherwise the trimmed input unchanged; and the fenced
and unfenced forms of `{"a":1}` normalize to identical text. -/
theorem fence_normalization_spec :
    (∀ raw, normalizeFence raw = .ok (normFn raw)) ∧
    (∀ raw, startsWithL tk3 (pyStrip raw) = false →
      normalizeFence raw = .ok (pyStrip raw)) ∧
    normalizeFence exFenced = .ok exPlain ∧
    normalizeFence exPlain = .ok exPlain := by
  refine ⟨normalizeFence_eq, ?_, ?_, ?_⟩
  · intro raw h
    unfold normalizeFence
    simp [h, pyStrip_idem]
  · rfl
  · rfl

/-- Witness for C6 at the concrete unfenced input `"E"`. -/
theorem fence_normalization_spec_witness :
    normalizeFence txtE = .ok (normFn txtE) ∧
    startsWithL tk3 (pyStrip txtE) = false ∧
    normalizeFence txtE = .ok (pyStrip txtE) :=
  ⟨fence_normalization_spec.1 txtE, by decide,
   fence_normalization_spec.2.1 txtE (by decide)⟩

/-- Claim C9: every render call acquires exactly one figure and releases
exactly one figure before returning, on the success path and on the failure
path alike. -/
theorem render_releases_figure (data ct title xlabel ylabel : Json) :
    (createChart data ct title xlabel ylabel).figsOpened = 1 ∧
    (createChart data ct title xlabel ylabel).figsClosed = 1 := by
  unfold createChart
  cases createBody data ct <;> exact ⟨rfl, rfl⟩

/-- Counterexample to claim C4: a line spec whose data lacks both required
keys (`x` and `y`) renders successfully (empty series are substituted)
instead of failing with a render error. -/
theorem missing_keys_render_ok :
    jGet (Json.jobj []) kX = none ∧ jGet (Json.jobj []) kY = none ∧
    (createChart (.jobj []) (.jstr ctLine) .jnull .jnull .jnull).outcome.isOk
      = true :=
  ⟨rfl, rfl, rfl⟩

/-- Claim C4 as amended: rendering fails when the chart type is not one of
the six supported kinds (with the unsupported-type message), and for
heatmap when the matrix rows have unequal lengths — the concrete matrix
`[[1,2,3],[4,5]]` fails while `[[1,2],[3,4]]` renders; a missing required
data key does not by itself cause failure (empty defaults are
substituted). -/
theorem render_failure_conditions :
    (∀ data title xlabel ylabel ct, supportedCt ct = false →
      (createChart data ct title xlabel ylabel).outcome =
        .error (renderErrPrefix ++ msgUnsupportedPrefix ++ pyStrOf ct)) ∧
    (createChart heatDataRagged (.jstr ctHeatmap) .jnull .jnull .jnull).outcome
      = .error (renderErrPrefix ++ msgImshowBad) ∧
    (createChart heatDataRect (.jstr ctHeatmap) .jnull .jnull .jnull).outcome.isOk
      = true := by
  refine ⟨?_, rfl, rfl⟩
  intro data title xlabel ylabel ct h
  simp only [supportedCt, Bool.or_eq_false_iff] at h
  obtain ⟨⟨⟨⟨⟨h1, h2⟩, h3⟩, h4⟩, h5⟩, h6⟩ := h
  unfold createChart createBody
  simp [h1, h2, h3, h4, h5, h6, throw, throwThe, MonadExceptOf.throw]

/-- Witness for C4 at the concrete unsupported type `"donut"`. -/
theorem render_failure_conditions_witness :
    supportedCt (.jstr ctDonut) = false ∧
    (createChart (.jobj []) (.jstr ctDonut) .jnull .jnull .jnull).outcome =
      .error (renderErrPrefix ++ msgUnsupportedPrefix ++ ctDonut) :=
  ⟨by decide,
   render_failure_conditions.1 (.jobj []) .jnull .jnull .jnull
     (.jstr ctDonut) (by decide)⟩

/-- Claim C8: a pie spec whose data has no `explode` key is rendered with
an explode sequence of length `len(labels)` whose entries all equal
`0.05`. -/
theorem pie_explode_default (fields : List (Str × Json))
    (title xlabel ylabel : Json) (labels values : List Json)
    (hne : assocFind fields kExplode = none)
    (hl : assocFind fields kLabels = some (.jarr labels))
    (hv : assocFind fields kValues = some (.jarr values))
    (hnum : values.all isNum = true)
    (hlen : labels.length = values.length) :
    ∃ d, (createChart (.jobj fields) (.jstr ctPie) title xlabel ylabel).outcome
        = .ok d ∧
      d.payload.explodeOf =
        some (.jarr (List.replicate labels.length (.jnum (1/20)))) := by
  have c1 : jEqStr (Json.jstr ctPie) ctLine = false := by decide
  have c2 : jEqStr (Json.jstr ctPie) ctBar = false := by decide
  have c3 : jEqStr (Json.jstr ctPie) ctPie = true := by decide
  have hb : createBody (.jobj fields) (.jstr ctPie) =
      .ok (DrawPayload.pie values labels
        (.jarr (List.replicate labels.length (.jnum (1/20))))) := by
    unfold createBody
    simp [c1, c2, c3, pyGet, hl, hv, hne, pyLenE, asArrE, hlen,
      Bind.bind, Except.bind]
    rw [if_pos (List.all_eq_true.mp hnum)]
    rfl
  unfold createChart
  rw [hb]
  exact ⟨_, rfl, rfl⟩

/-- Witness for C8 at a concrete pie spec with 4 labels and no explode. -/
theorem pie_explode_default_witness :
    assocFind pieData4 kExplode = none ∧
    (∃ d, (createChart (.jobj pieData4) (.jstr ctPie) .jnull .jnull .jnull).outcome
        = .ok d ∧
      d.payload.explodeOf =
        some (.jarr (List.replicate 4 (.jnum (1/20))))) :=
  ⟨rfl,
   pie_explode_default pieData4 .jnull .jnull .jnull
     [.jstr titleT1, .jstr titleT2, .jstr titleT3, .jstr titleT4]
     [.jnum 1, .jnum 2, .jnum 3, .jnum 4] rfl rfl rfl rfl rfl⟩

/-- Counterexample to claim C2: a two-spec batch with exactly one malformed
spec does not yield a one-image batch with a failure count — the whole
batch call aborts with an error. -/
theorem renderAll_batch_aborts :
    (renderOne goodLineCfg).isOk = true ∧
    (renderOne badTypeCfg).isOk = false ∧
    renderAllIndividual [goodLineCfg, badTypeCfg] =
      .error (renderErrPrefix ++ msgUnsupportedPrefix ++ ctDonut) :=
  ⟨rfl, rfl, rfl⟩

/-- Claim C2 as amended: batch packaging renders specs in the given order,
but a render failure aborts the whole batch instead of being recorded:
when every spec renders, the individual form returns exactly one image per
spec; when any spec fails to render, the whole call fails and no partial
batch or failure count is produced. -/
theorem renderAll_aborts_on_failure :
    (∀ cs : List Json, (∀ c ∈ cs, (renderOne c).isOk = true) →
      ∃ l, renderAllIndividual cs = .ok l ∧ l.length = cs.length) ∧
    (∀ cs : List Json, (∃ c ∈ cs, (renderOne c).isOk = false) →
      (renderAllIndividual cs).isOk = false) := by
  constructor
  · intro cs h
    induction cs with
    | nil => exact ⟨[], rfl, rfl⟩
    | cons c rest ih =>
      have hc := h c (List.mem_cons_self _ _)
      obtain ⟨r, hr⟩ : ∃ r, renderOne c = .ok r := by
        cases hco : renderOne c with
        | ok r => exact ⟨r, rfl⟩
        | error e =>
          rw [hco] at hc
          simp [Except.isOk, Except.toBool] at hc
      obtain ⟨l, hl, hlen⟩ := ih (fun x hx => h x (List.mem_cons_of_mem _ hx))
      refine ⟨r :: l, ?_, by simp [hlen]⟩
      simp [renderAllIndividual, hr, hl]
  · intro cs
    induction cs with
    | nil =>
      rintro ⟨c, hc, _⟩
      cases hc
    | cons c rest ih =>
      rintro ⟨x, hx, hxf⟩
      cases hco : renderOne c with
      | error e => simp [renderAllIndividual, hco, Except.isOk, Except.toBool]
      | ok r =>
        rcases List.mem_cons.mp hx with rfl | hxr
        · rw [hco] at hxf
          simp [Except.isOk, Except.toBool] at hxf
        · have hrec := ih ⟨x, hxr, hxf⟩
          cases hrest : renderAllIndividual rest with
          | error e =>
            simp [renderAllIndividual, hco, hrest, Except.isOk, Except.toBool]
          | ok l =>
            rw [hrest] at hrec
            simp [Except.isOk, Except.toBool] at hrec

/-- Witness for C2 at concrete one-element batches. -/
theorem renderAll_aborts_on_failure_witness :
    (∃ l, renderAllIndividual [goodLineCfg] = .ok l ∧ l.length = 1) ∧
    (renderAllIndividual [badTypeCfg]).isOk = false := by
  refine ⟨renderAll_aborts_on_failure.1 [goodLineCfg] ?_,
    renderAll_aborts_on_failure.2 [badTypeCfg]
      ⟨badTypeCfg, List.mem_singleton_self _, rfl⟩⟩
  intro c hc
  rw [List.mem_singleton] at hc
  subst hc
  rfl

theorem extractFD_state (loads : Str → Option Json) (o : Oracle)
    (report : Str) (st : LMState) :
    (extractFD loads o report st).2 =
      { idx := st.idx + 1,
        log := st.log ++ [{ tag := .extraction, request := report,
                            tokens := (o st.idx).totalTokens }] } := by
  unfold extractFD lmCall
  dsimp only
  cases h : normalizeFence (o st.idx).text with
  | error e => simp [h]
  | ok txt =>
    cases hl : loads txt with
    | none => simp [h, hl]
    | some j => simp [h, hl]

theorem extractFD_ok (loads : Str → Option Json) (o : Oracle)
    (report : Str) (st : LMState) (j : Json)
    (h : loads (normFn (o st.idx).text) = some j) :
    (extractFD loads o report st).1 = .ok j := by
  unfold extractFD lmCall
  simp [normalizeFence_eq, h]

theorem extractFD_err (loads : Str → Option Json) (o : Oracle)
    (report : Str) (st : LMState)
    (h : loads (normFn (o st.idx).text) = none) :
    (extractFD loads o report st).1 =
      .error (msgBadJsonPrefix ++ (normFn (o st.idx).text).take 200) := by
  unfold extractFD lmCall
  simp [normalizeFence_eq, h]

theorem generateChartConfig_state (loads : Str → Option Json) (o : Oracle)
    (ed : Json) (req : Str) (st : LMState) :
    (generateChartConfig loads o ed req st).2 =
      { idx := st.idx + 1,
        log := st.log ++ [{ tag := .specGen, request := req,
                            tokens := (o st.idx).totalTokens }] } := by
  unfold generateChartConfig lmCall
  dsimp only
  cases h : normalizeFence (o st.idx).text with
  | error e => simp [h]
  | ok txt =>
    cases hl : loads txt with
    | none => simp [h, hl]
    | some j => simp [h, hl]

theorem generateChartConfig_ok (loads : Str → Option Json) (o : Oracle)
    (ed : Json) (req : Str) (st : LMState) (j : Json)
    (h : loads (normFn (o st.idx).text) = some j) :
    (generateChartConfig loads o ed req st).1 = .ok j := by
  unfold generateChartConfig lmCall
  simp [normalizeFence_eq, h]

theorem pyIndex_eq_ok (rec : Json) (k : Str) (v : Json)
    (h : jGet rec k = some v) : pyIndex rec k = .ok v := by
  cases rec <;> simp [jGet] at h <;> simp [pyIndex, h]

theorem mkChartRequest_eq (rec : Json) (ty ti : Json)
    (hty : jGet rec kType = some ty) (hti : jGet rec kTitle = some ti) :
    mkChartRequest rec = .ok (recReq rec) := by
  unfold mkChartRequest recReq
  rw [pyIndex_eq_ok rec kType ty hty, pyIndex_eq_ok rec kTitle ti hti, hty, hti]
  rfl

theorem genTryBody_state (loads : Str → Option Json) (o : Oracle)
    (ed rec : Json) (i : Nat) (st : LMState) (req : Str)
    (h : mkChartRequest rec = .ok req) :
    (genTryBody loads o ed rec i st).2 =
      (generateChartConfig loads o ed req st).2 := by
  unfold genTryBody
  rw [h]
  dsimp only
  rcases hg : generateChartConfig loads o ed req st with ⟨r, st'⟩
  dsimp only
  cases r with
  | error e => rfl
  | ok cfg =>
    dsimp only
    cases pyGet rec kPriority (.jnum (i + 1)) with
    | error e => rfl
    | ok pr =>
      dsimp only
      cases pySet cfg kPriority pr with
      | error e => rfl
      | ok cfg' =>
        dsimp only
        cases pyGet rec kDescription (.jstr []) with
        | error e => rfl
        | ok de =>
          dsimp only
          cases pySet cfg' kDescription de with
          | error e => rfl
          | ok cfg'' => rfl

theorem specReqs_append (a b : List CallRec) :
    specReqs (a ++ b) = specReqs a ++ specReqs b := by
  simp [specReqs]

theorem genMultiLoop_specReqs (loads : Str → Option Json) (o : Oracle)
    (ed : Json) :
    ∀ (l : List Json) (i : Nat) (st : LMState),
      (∀ r ∈ l, (∃ v, jGet r kTitle = some v) ∧ (∃ v, jGet r kType = some v)) →
      specReqs ((genMultiLoop loads o ed l i st).2.log) =
        specReqs st.log ++ l.map recReq := by
  intro l
  induction l with
  | nil =>
    intro i st h
    simp [genMultiLoop]
  | cons rec rest ih =>
    intro i st h
    obtain ⟨⟨ti, hti⟩, ty, hty⟩ := h rec (List.mem_cons_self _ _)
    have hreq : mkChartRequest rec = .ok (recReq rec) :=
      mkChartRequest_eq rec ty ti hty hti
    have hidx : pyIndex rec kTitle = .ok ti := pyIndex_eq_ok rec kTitle ti hti
    have hrest := fun r hr => h r (List.mem_cons_of_mem _ hr)
    rcases hgb : genTryBody loads o ed rec i st with ⟨res, st'⟩
    have hst' : st' = (generateChartConfig loads o ed (recReq rec) st).2 := by
      have hx := genTryBody_state loads o ed rec i st (recReq rec) hreq
      rw [hgb] at hx
      exact hx
    have hlog : specReqs st'.log = specReqs st.log ++ [recReq rec] := by
      rw [hst', generateChartConfig_state, specReqs_append]
      rfl
    cases res with
    | error e =>
      rw [genMultiLoop, hidx, hgb]
      dsimp only
      rw [ih (i + 1) st' hrest, hlog]
      simp
    | ok cfg =>
      rw [genMultiLoop, hidx, hgb]
      dsimp only
      have hih := ih (i + 1) st' hrest
      rcases hr2 : genMultiLoop loads o ed rest (i + 1) st' with ⟨res2, st''⟩
      rw [hr2] at hih
      dsimp only at hih
      cases res2 <;> dsimp only <;> rw [hih, hlog] <;> simp

/-- Counterexample to claim C1: with five recommendations of priorities
`[3,1,2,5,4]` in list order and `max_charts = 2`, spec synthesis is
invoked for the first two recommendations of the list (priorities 3 and
1), not for the priority-1 and priority-2 recommendations. -/
theorem orchestrator_not_priority_sorted :
    specReqs runC1.2.log =
      [recReq (recFix titleT1 3), recReq (recFix titleT2 1)] ∧
    specReqs runC1.2.log ≠
      [recReq (recFix titleT2 1), recReq (recFix titleT3 2)] := by
  exact ⟨rfl, by decide⟩

/-- Claim C1 as amended: the orchestrator synthesizes one spec per
recommendation among the first `max_charts` entries of the recommendation
list, in list order, regardless of the priority values; no sorting by
priority is performed. -/
theorem genMulti_selects_prefix (loads : Str → Option Json) (o : Oracle)
    (report : Str) (n : Nat) (st : LMState) (ext ed : Json)
    (recs : List Json)
    (hx : (extractFD loads o report st).1 = .ok ext)
    (hed : pyGet ext kExtractedData (.jobj []) = .ok ed)
    (hrecs : pyGet ext kRecommendedCharts (.jarr []) = .ok (.jarr recs))
    (hfalsy : pyFalsy ed = false)
    (hwf : ∀ r ∈ recs.take n,
      (∃ v, jGet r kTitle = some v) ∧ (∃ v, jGet r kType = some v)) :
    specReqs ((genMultipleCharts loads o report n st).2.log) =
      specReqs ((extractFD loads o report st).2.log) ++
        (recs.take n).map recReq := by
  unfold genMultipleCharts
  rcases hq : extractFD loads o report st with ⟨r, st1⟩
  rw [hq] at hx
  dsimp only at hx ⊢
  subst hx
  dsimp only
  rw [hed]
  dsimp only
  rw [hrecs]
  dsimp only
  simp only [hfalsy, Bool.false_eq_true, if_false]
  exact genMultiLoop_specReqs loads o ed (recs.take n) 0 st1 hwf

/-- Witness for C1 at the concrete priority-`[3,1,2,5,4]` run. -/
theorem genMulti_selects_prefix_witness :
    specReqs runC1.2.log =
      specReqs ((extractFD (mkLoads extWithRecs cfgFix) oracleEC reportR st0).2.log)
        ++ (recsP.take 2).map recReq := by
  apply genMulti_selects_prefix (mkLoads extWithRecs cfgFix) oracleEC reportR 2
    st0 extWithRecs edNonempty recsP rfl rfl rfl rfl
  intro r hr
  rw [show recsP.take 2 = [recFix titleT1 3, recFix titleT2 1] from rfl] at hr
  rcases List.mem_cons.mp hr with rfl | hr
  · exact ⟨⟨_, rfl⟩, _, rfl⟩
  rcases List.mem_cons.mp hr with rfl | hr
  · exact ⟨⟨_, rfl⟩, _, rfl⟩
  exact absurd hr (List.not_mem_nil r)

/-- Counterexample to claim C5: on the single-chart user-request path an
extraction whose parsed `extracted_data` is empty raises no error — the
run returns one chart config and no error key. -/
theorem empty_dataset_not_rejected_on_user_path :
    chartIntent (some userReqChart) = true ∧
    pyGet extEmptyED kExtractedData (.jobj []) = .ok (.jobj []) ∧
    pyFalsy (.jobj []) = true ∧
    runEmptyED.1.errorMsg = PyOpt.absent ∧
    runEmptyED.1.chartConfigs = PyOpt.val [cfgFix] :=
  ⟨by decide, rfl, rfl, rfl, rfl⟩

/-- Claim C5 as amended: the extraction call raises exactly when the
normalized completion fails to parse (returning the parsed value
otherwise); the additional failure on empty/falsy `extracted_data` is
enforced only by the multi-chart path, not by every path that invokes
extraction. -/
theorem extraction_failure_conditions :
    (∀ (loads : Str → Option Json) (o : Oracle) (report : Str)
      (st : LMState) (j : Json),
      loads (normFn (o st.idx).text) = some j →
      (extractFD loads o report st).1 = .ok j) ∧
    (∀ (loads : Str → Option Json) (o : Oracle) (report : Str)
      (st : LMState),
      loads (normFn (o st.idx).text) = none →
      (extractFD loads o report st).1 =
        .error (msgBadJsonPrefix ++ (normFn (o st.idx).text).take 200)) ∧
    (∀ (loads : Str → Option Json) (o : Oracle) (report : Str) (n : Nat)
      (st : LMState) (ext ed recsJ : Json),
      (extractFD loads o report st).1 = .ok ext →
      pyGet ext kExtractedData (.jobj []) = .ok ed →
      pyGet ext kRecommendedCharts (.jarr []) = .ok recsJ →
      pyFalsy ed = true →
      (genMultipleCharts loads o report n st).1 = .error msgNoExtract) := by
  refine ⟨fun loads o report st j h => extractFD_ok loads o report st j h,
    fun loads o report st h => extractFD_err loads o report st h, ?_⟩
  intro loads o report n st ext ed recsJ hx hed hrecs hf
  unfold genMultipleCharts
  rcases hq : extractFD loads o report st with ⟨r, st1⟩
  rw [hq] at hx
  dsimp only at hx ⊢
  subst hx
  dsimp only
  rw [hed]
  dsimp only
  rw [hrecs]
  dsimp only
  simp [hf]

/-- Witness for C5 at concrete parse-success, parse-failure and
empty-dataset runs. -/
theorem extraction_failure_conditions_witness :
    (extractFD (mkLoads extWithRecs cfgFix) oracleEC reportR st0).1 =
      .ok extWithRecs ∧
    (extractFD loadsNone oracleEC reportR st0).1 =
      .error (msgBadJsonPrefix ++ (normFn (oracleEC 0).text).take 200) ∧
    (genMultipleCharts (mkLoads extEmptyED cfgFix) oracleEC reportR 3 st0).1 =
      .error msgNoExtract :=
  ⟨extraction_failure_conditions.1 _ _ _ _ _ rfl,
   extraction_failure_conditions.2.1 _ _ _ _ rfl,
   extraction_failure_conditions.2.2 _ _ _ 3 _ extEmptyED (.jobj []) (.jarr [])
     rfl rfl rfl rfl⟩

/-- Claim C7: when the user request carries a chart-intent keyword and the
two language-model completions parse, the orchestrator makes exactly one
extraction call and exactly one spec-synthesis call (whose request is the
user request itself, bypassing the recommendation list) and returns a
chart-config list of length exactly 1. -/
theorem single_chart_path (loads : Str → Option Json) (o : Oracle)
    (pdf ur : Str) (st : LMState) (ext ed cfg recsJ : Json)
    (hI : chartIntent (some ur) = true)
    (hE : loads (normFn (o st.idx).text) = some ext)
    (hED : pyGet ext kExtractedData (.jobj []) = .ok ed)
    (hC : loads (normFn (o (st.idx + 1)).text) = some cfg)
    (hR : pyGet ext kRecommendedCharts (.jarr []) = .ok recsJ) :
    integrateSmart loads o pdf (some ur) st =
      ({ errorMsg := .absent, extractedData := .val ed,
         chartConfigs := .val [cfg], recommendedCharts := .val recsJ },
       { idx := st.idx + 2,
         log := st.log ++
           [{ tag := .extraction, request := pdf,
              tokens := (o st.idx).totalTokens },
            { tag := .specGen, request := ur,
              tokens := (o (st.idx + 1)).totalTokens }] }) := by
  have hx : (extractFD loads o pdf st).1 = .ok ext :=
    extractFD_ok loads o pdf st ext hE
  have hxs := extractFD_state loads o pdf st
  have hc1 : (generateChartConfig loads o ed ur
      ((extractFD loads o pdf st).2)).1 = .ok cfg := by
    apply generateChartConfig_ok
    rw [hxs]
    exact hC
  have hc2 := generateChartConfig_state loads o ed ur
    ((extractFD loads o pdf st).2)
  rw [hxs] at hc2
  unfold integrateSmart integrateInner
  rw [if_pos hI]
  rcases hq : extractFD loads o pdf st with ⟨r, st1⟩
  rw [hq] at hx hxs hc1
  try dsimp only at hx hxs hc1
  subst hx
  subst hxs
  try dsimp only [Option.getD]
  rw [hED]
  try dsimp only
  rcases hg : generateChartConfig loads o ed ur
      { idx := st.idx + 1,
        log := st.log ++ [{ tag := .extraction, request := pdf,
                            tokens := (o st.idx).totalTokens }] }
    with ⟨r2, st2⟩
  rw [hg] at hc1 hc2
  try dsimp only at hc1 hc2
  subst hc1
  subst hc2
  try dsimp only
  rw [hR]
  try dsimp only
  simp [List.append_assoc]

/-- Witness for C7 at a concrete keyword-bearing request. -/
theorem single_chart_path_witness :
    chartIntent (some userReqChart) = true ∧
    (integrateSmart (mkLoads extWithRecs cfgFix) oracleEC pdfP
        (some userReqChart) st0).1.chartConfigs = PyOpt.val [cfgFix] := by
  refine ⟨by decide, ?_⟩
  rw [single_chart_path (mkLoads extWithRecs cfgFix) oracleEC pdfP userReqChart
    st0 extWithRecs edNonempty cfgFix (.jarr recsP) (by decide) rfl rfl rfl rfl]

/-- Claim C10: `integrate_smart_chart_to_api` never propagates an
exception: whenever its inner body raises with message `m`, it returns the
dict with `error = m`, `extracted_data = None` and `chart_configs = []`. -/
theorem integrate_catches_exceptions (loads : Str → Option Json)
    (o : Oracle) (pdfText : Str) (userReq : Option Str) (st : LMState)
    (m : Str)
    (h : (integrateInner loads o pdfText userReq st).1 = .error m) :
    (integrateSmart loads o pdfText userReq st).1 =
      { errorMsg := .val m, extractedData := .pyNone,
        chartConfigs := .val [], recommendedCharts := .absent } := by
  unfold integrateSmart
  rcases hq : integrateInner loads o pdfText userReq st with ⟨r, st'⟩
  rw [hq] at h
  dsimp only at h ⊢
  subst h
  rfl

/-- Witness for C10 at a run whose extraction completion fails to parse. -/
theorem integrate_catches_exceptions_witness :
    (integrateInner loadsNone oracleEC pdfP (some userReqChart) st0).1 =
      .error (msgBadJsonPrefix ++ txtE) ∧
    (integrateSmart loadsNone oracleEC pdfP (some userReqChart) st0).1 =
      { errorMsg := .val (msgBadJsonPrefix ++ txtE), extractedData := .pyNone,
        chartConfigs := .val [], recommendedCharts := .absent } :=
  ⟨rfl, integrate_catches_exceptions loadsNone oracleEC pdfP
    (some userReqChart) st0 (msgBadJsonPrefix ++ txtE) rfl⟩

theorem sumTok_append (a b : List CallRec) :
    sumTok (a ++ b) = sumTok a + sumTok b := by
  simp [sumTok]

theorem filterOA_append (a b : List CallRec) :
    filterOA (a ++ b) = filterOA a ++ filterOA b := by
  simp [filterOA]

theorem filterOA_chart (Δ : List CallRec)
    (h : ∀ e ∈ Δ, e.tag = CallTag.extraction ∨ e.tag = CallTag.specGen) :
    filterOA Δ = [] := by
  induction Δ with
  | nil => rfl
  | cons e rest ih =>
    have he := h e (List.mem_cons_self _ _)
    have hcond : (e.tag == CallTag.ocr || e.tag == CallTag.analysis) = false := by
      rcases he with h' | h' <;> rw [h'] <;> rfl
    have ih' := ih (fun x hx => h x (List.mem_cons_of_mem _ hx))
    simp only [filterOA] at ih' ⊢
    simp [List.filter_cons, hcond, ih']

theorem filterOA_keep (Δ : List CallRec)
    (h : ∀ e ∈ Δ, e.tag = CallTag.ocr ∨ e.tag = CallTag.analysis) :
    filterOA Δ = Δ := by
  induction Δ with
  | nil => rfl
  | cons e rest ih =>
    have he := h e (List.mem_cons_self _ _)
    have hcond : (e.tag == CallTag.ocr || e.tag == CallTag.analysis) = true := by
      rcases he with h' | h' <;> rw [h'] <;> rfl
    have ih' := ih (fun x hx => h x (List.mem_cons_of_mem _ hx))
    simp only [filterOA] at ih' ⊢
    simp [List.filter_cons, hcond, ih']

theorem genTryBody_log (loads : Str → Option Json) (o : Oracle)
    (ed rec : Json) (i : Nat) (st : LMState) :
    ∃ Δ, (genTryBody loads o ed rec i st).2.log = st.log ++ Δ ∧
      ∀ e ∈ Δ, e.tag = CallTag.extraction ∨ e.tag = CallTag.specGen := by
  cases hm : mkChartRequest rec with
  | error e =>
    refine ⟨[], ?_, by simp⟩
    simp [genTryBody, hm]
  | ok req =>
    refine ⟨[{ tag := .specGen, request := req,
               tokens := (o st.idx).totalTokens }], ?_, ?_⟩
    · rw [genTryBody_state loads o ed rec i st req hm,
        generateChartConfig_state]
    · intro e he
      rw [List.mem_singleton] at he
      subst he
      exact Or.inr rfl

theorem genMultiLoop_log (loads : Str → Option Json) (o : Oracle)
    (ed : Json) :
    ∀ (l : List Json) (i : Nat) (st : LMState),
      ∃ Δ, (genMultiLoop loads o ed l i st).2.log = st.log ++ Δ ∧
        ∀ e ∈ Δ, e.tag = CallTag.extraction ∨ e.tag = CallTag.specGen := by
  intro l
  induction l with
  | nil =>
    intro i st
    exact ⟨[], by simp [genMultiLoop], by simp⟩
  | cons rec rest ih =>
    intro i st
    cases hti : pyIndex rec kTitle with
    | error e =>
      refine ⟨[], ?_, by simp⟩
      rw [genMultiLoop, hti]
      simp
    | ok v =>
      obtain ⟨Δ1, h1, h1t⟩ := genTryBody_log loads o ed rec i st
      rcases hgb : genTryBody loads o ed rec i st with ⟨res, st'⟩
      rw [hgb] at h1
      dsimp only at h1
      obtain ⟨Δ2, h2, h2t⟩ := ih (i + 1) st'
      cases res with
      | error e =>
        refine ⟨Δ1 ++ Δ2, ?_, ?_⟩
        · rw [genMultiLoop, hti, hgb]
          dsimp only
          rw [h2, h1, List.append_assoc]
        · intro x hx
          rcases List.mem_append.mp hx with h | h
          exacts [h1t x h, h2t x h]
      | ok cfg =>
        refine ⟨Δ1 ++ Δ2, ?_, ?_⟩
        · rw [genMultiLoop, hti, hgb]
          dsimp only
          rcases hr2 : genMultiLoop loads o ed rest (i + 1) st' with ⟨res2, st''⟩
          rw [hr2] at h2
          dsimp only at h2
          cases res2 <;> dsimp only <;> rw [h2, h1, List.append_assoc]
        · intro x hx
          rcases List.mem_append.mp hx with h | h
          exacts [h1t x h, h2t x h]

theorem genMultipleCharts_log (loads : Str → Option Json) (o : Oracle)
    (report : Str) (n : Nat) (st : LMState) :
    ∃ Δ, (genMultipleCharts loads o report n st).2.log = st.log ++ Δ ∧
      ∀ e ∈ Δ, e.tag = CallTag.extraction ∨ e.tag = CallTag.specGen := by
  unfold genMultipleCharts
  have hxs := extractFD_state loads o report st
  rcases hq : extractFD loads o report st with ⟨r, st1⟩
  rw [hq] at hxs
  dsimp only at hxs
  have hone : ∀ x ∈ [(⟨CallTag.extraction, report,
      (o st.idx).totalTokens⟩ : CallRec)],
      x.tag = CallTag.extraction ∨ x.tag = CallTag.specGen := by
    intro x hx
    rw [List.mem_singleton] at hx
    subst hx
    exact Or.inl rfl
  have hst1 : st1.log = st.log ++ [(⟨CallTag.extraction, report,
      (o st.idx).totalTokens⟩ : CallRec)] := by
    rw [hxs]
  cases r with
  | error e => exact ⟨_, hst1, hone⟩
  | ok ext =>
    dsimp only
    cases pyGet ext kExtractedData (.jobj []) with
    | error e => exact ⟨_, hst1, hone⟩
    | ok ed =>
      dsimp only
      cases pyGet ext kRecommendedCharts (.jarr []) with
      | error e => exact ⟨_, hst1, hone⟩
      | ok recsJ =>
        dsimp only
        by_cases hf : pyFalsy ed = true
        · simp only [hf, if_true]
          exact ⟨_, hst1, hone⟩
        · simp only [Bool.not_eq_true] at hf
          simp only [hf, Bool.false_eq_true, if_false]
          cases recsJ with
          | jarr recs =>
            dsimp only
            obtain ⟨Δ2, h2, h2t⟩ :=
              genMultiLoop_log loads o ed (recs.take n) 0 st1
            refine ⟨[(⟨CallTag.extraction, report,
              (o st.idx).totalTokens⟩ : CallRec)] ++ Δ2, ?_, ?_⟩
            · rw [h2, hst1, List.append_assoc]
            · intro x hx
              rcases List.mem_append.mp hx with h | h
              exacts [hone x h, h2t x h]
          | jnull => exact ⟨_, hst1, hone⟩
          | jbool b => exact ⟨_, hst1, hone⟩
          | jnum q => exact ⟨_, hst1, hone⟩
          | jstr s => exact ⟨_, hst1, hone⟩
          | jobj fields => exact ⟨_, hst1, hone⟩

theorem integrateInner_log (loads : Str → Option Json) (o : Oracle)
    (pdfText : Str) (userReq : Option Str) (st : LMState) :
    ∃ Δ, (integrateInner loads o pdfText userReq st).2.log = st.log ++ Δ ∧
      ∀ e ∈ Δ, e.tag = CallTag.extraction ∨ e.tag = CallTag.specGen := by
  unfold integrateInner
  by_cases hI : chartIntent userReq = true
  · rw [if_pos hI]
    have hxs := extractFD_state loads o pdfText st
    rcases hq : extractFD loads o pdfText st with ⟨r, st1⟩
    rw [hq] at hxs
    dsimp only at hxs
    have hone : ∀ x ∈ [(⟨CallTag.extraction, pdfText,
        (o st.idx).totalTokens⟩ : CallRec)],
        x.tag = CallTag.extraction ∨ x.tag = CallTag.specGen := by
      intro x hx
      rw [List.mem_singleton] at hx
      subst hx
      exact Or.inl rfl
    have hst1 : st1.log = st.log ++ [(⟨CallTag.extraction, pdfText,
        (o st.idx).totalTokens⟩ : CallRec)] := by
      rw [hxs]
    cases r with
    | error e => exact ⟨_, hst1, hone⟩
    | ok ext =>
      dsimp only
      cases pyGet ext kExtractedData (.jobj []) with
      | error e => exact ⟨_, hst1, hone⟩
      | ok ed =>
        dsimp only
        have hgs := generateChartConfig_state loads o ed (userReq.getD []) st1
        rcases hg : generateChartConfig loads o ed (userReq.getD []) st1
          with ⟨r2, st2⟩
        rw [hg] at hgs
        dsimp only at hgs
        have hst2 : st2.log = st.log ++
            [(⟨CallTag.extraction, pdfText,
               (o st.idx).totalTokens⟩ : CallRec),
             ⟨CallTag.specGen, userReq.getD [],
               (o st1.idx).totalTokens⟩] := by
          rw [hgs]
          dsimp only
          rw [hst1, List.append_assoc]
          rfl
        have htwo : ∀ x ∈ [(⟨CallTag.extraction, pdfText,
            (o st.idx).totalTokens⟩ : CallRec),
            ⟨CallTag.specGen, userReq.getD [],
              (o st1.idx).totalTokens⟩],
            x.tag = CallTag.extraction ∨ x.tag = CallTag.specGen := by
          intro x hx
          rcases List.mem_cons.mp hx with rfl | hx
          · exact Or.inl rfl
          rw [List.mem_singleton] at hx
          subst hx
          exact Or.inr rfl
        cases r2 with
        | error e => exact ⟨_, hst2, htwo⟩
        | ok cfg =>
          dsimp only
          cases pyGet ext kRecommendedCharts (.jarr []) with
          | error e => exact ⟨_, hst2, htwo⟩
          | ok recsJ => exact ⟨_, hst2, htwo⟩
  · rw [if_neg hI]
    obtain ⟨Δ, h1, h2⟩ := genMultipleCharts_log loads o pdfText 3 st
    rcases hq : genMultipleCharts loads o pdfText 3 st with ⟨r, st1⟩
    rw [hq] at h1
    dsimp only at h1
    cases r with
    | error e => exact ⟨Δ, h1, h2⟩
    | ok configs => exact ⟨Δ, h1, h2⟩

theorem integrateSmart_log (loads : Str → Option Json) (o : Oracle)
    (pdfText : Str) (userReq : Option Str) (st : LMState) :
    ∃ Δ, (integrateSmart loads o pdfText userReq st).2.log = st.log ++ Δ ∧
      ∀ e ∈ Δ, e.tag = CallTag.extraction ∨ e.tag = CallTag.specGen := by
  obtain ⟨Δ, h1, h2⟩ := integrateInner_log loads o pdfText userReq st
  refine ⟨Δ, ?_, h2⟩
  unfold integrateSmart
  rcases hq : integrateInner loads o pdfText userReq st with ⟨r, st'⟩
  rw [hq] at h1
  dsimp only at h1
  cases r <;> exact h1

theorem ocrPhase_spec (o : Oracle) :
    ∀ (imgs : List Str) (combined : Str) (tot : Nat) (st : LMState),
      ∃ Δ, ((ocrPhase o imgs combined tot st).2.2).log = st.log ++ Δ ∧
        (∀ e ∈ Δ, e.tag = CallTag.ocr) ∧
        (ocrPhase o imgs combined tot st).2.1 = tot + sumTok Δ := by
  intro imgs
  induction imgs with
  | nil =>
    intro c t st
    exact ⟨[], by simp [ocrPhase], by simp, by simp [ocrPhase, sumTok]⟩
  | cons img rest ih =>
    intro c t st
    obtain ⟨Δ, h1, h2, h3⟩ := ih (c ++ imgHeader ++ (o st.idx).text)
      (t + (o st.idx).totalTokens)
      { idx := st.idx + 1,
        log := st.log ++ [{ tag := .ocr, request := img,
                            tokens := (o st.idx).totalTokens }] }
    refine ⟨{ tag := CallTag.ocr, request := img,
              tokens := (o st.idx).totalTokens } :: Δ, ?_, ?_, ?_⟩
    · rw [ocrPhase]
      dsimp only [lmCall]
      rw [h1]
      simp
    · intro e he
      rcases List.mem_cons.mp he with rfl | h
      · rfl
      · exact h2 e h
    · rw [ocrPhase]
      dsimp only [lmCall]
      rw [h3]
      simp [sumTok]
      omega

theorem chartPhase_log (loads : Str → Option Json) (o : Oracle)
    (pdfT : Str) (textContent : Option Str) (createCharts : Bool)
    (st : LMState) :
    ∃ Δ, (chartPhase loads o pdfT textContent createCharts st).2.2.log =
        st.log ++ Δ ∧
      ∀ e ∈ Δ, e.tag = CallTag.extraction ∨ e.tag = CallTag.specGen := by
  unfold chartPhase
  by_cases h : (createCharts && !pdfT.isEmpty) = true
  · rw [if_pos h]
    obtain ⟨Δ, h1, h2⟩ := integrateSmart_log loads o pdfT textContent st
    rcases hq : integrateSmart loads o pdfT textContent st with ⟨r, st'⟩
    rw [hq] at h1
    dsimp only at h1
    refine ⟨Δ, ?_, h2⟩
    dsimp only
    cases hr : r.chartConfigs with
    | absent => exact h1
    | pyNone => exact h1
    | val l => cases l <;> exact h1
  · rw [if_neg h]
    exact ⟨[], by simp, by simp⟩

theorem analysisPhase_spec (o : Oracle) (combined : Str) (tot : Nat)
    (st : LMState) :
    ∃ Δ, (analysisPhase o combined tot st).2.2.log = st.log ++ Δ ∧
      (∀ e ∈ Δ, e.tag = CallTag.ocr ∨ e.tag = CallTag.analysis) ∧
      (analysisPhase o combined tot st).2.1 = tot + sumTok Δ := by
  unfold analysisPhase
  by_cases h : (!(pyStrip combined).isEmpty) = true
  · rw [if_pos h]
    refine ⟨[{ tag := .analysis, request := combined,
               tokens := (o st.idx).totalTokens }], ?_, ?_, ?_⟩
    · simp [lmCall]
    · intro e he
      rw [List.mem_singleton] at he
      subst he
      exact Or.inr rfl
    · simp [lmCall, sumTok]
  · rw [if_neg h]
    exact ⟨[], by simp, by simp, by simp [sumTok]⟩

/-- Counterexample to claim C3: a full-pipeline run whose every completion
reports 7 tokens makes four LM calls (one image analysis, the extraction
call, one spec synthesis, the final analysis) but reports `tokens_used` of
14, not the 28 the claim demands. -/
theorem pipeline_tokens_undercount :
    runPipe.1.totalTokensUsed = 14 ∧
    sumTok runPipe.2.log = 28 ∧
    runPipe.1.totalTokensUsed ≠ sumTok runPipe.2.log := by
  refine ⟨rfl, rfl, by decide⟩

/-- Claim C3 as amended: the `tokens_used` statistic of a full pipeline run
equals the sum of the token counts of the image-analysis calls and the
final-analysis call only; the token counts of the extraction and
spec-synthesis calls made inside the smart-chart branch are not
included. -/
theorem pipeline_token_accounting (loads : Str → Option Json) (o : Oracle)
    (pdfText : Option Str) (images : List Str) (textContent : Option Str)
    (createCharts : Bool) (k : Nat) :
    (fullPipeline loads o pdfText images textContent createCharts
      { idx := k, log := [] }).1.totalTokensUsed =
    sumTok (filterOA ((fullPipeline loads o pdfText images textContent
      createCharts { idx := k, log := [] }).2.log)) := by
  unfold fullPipeline
  dsimp only
  obtain ⟨Δo, ho1, ho2, ho3⟩ :=
    ocrPhase_spec o images (pdfCombined textContent pdfText) 0
      { idx := k, log := [] }
  rcases hO : ocrPhase o images (pdfCombined textContent pdfText) 0
      { idx := k, log := [] } with ⟨c2, tot2, st2⟩
  rw [hO] at ho1 ho3
  dsimp only at ho1 ho3
  obtain ⟨Δc, hc1, hc2⟩ := chartPhase_log loads o (pdfText.getD [])
    textContent createCharts st2
  rcases hC : chartPhase loads o (pdfText.getD []) textContent createCharts
    st2 with ⟨configs, avail, st3⟩
  rw [hC] at hc1
  dsimp only at hc1
  obtain ⟨Δa, ha1, ha2, ha3⟩ := analysisPhase_spec o c2 tot2 st3
  rcases hA : analysisPhase o c2 tot2 st3 with ⟨ran, tot4, st4⟩
  rw [hA] at ha1 ha3
  dsimp only at ha1 ha3
  dsimp only
  rw [ha3, ho3, ha1, hc1, ho1]
  simp only [List.nil_append, filterOA_append, sumTok_append,
    filterOA_keep Δo (fun e he => Or.inl (ho2 e he)),
    filterOA_chart Δc hc2, filterOA_keep Δa ha2, sumTok]
  simp

end VTC
